import Mathlib

/-!
Verification development for the prompt-enhancement backend
(`src/Backend/app.py`, class `PromptEnhancer`).

Text is embedded as `List Nat`, the list of Unicode code points of a
Python string; `strToCodes` converts a Lean string literal to that form.
Python's `str.lower()` is modelled on the ASCII range (all keywords and
marker substrings in the program are ASCII), `str.split()` as counting
maximal runs of non-whitespace, and the `in` substring test as
a direct `isSubstr` scan on code-point lists.  The quality score, whose Python
value is a float that only ever takes integral values 0, 25, 50, 75, 100,
is embedded as `Nat`.
-/

set_option maxRecDepth 8192

/-- Code points of a string literal. -/
def strToCodes (s : String) : List Nat := s.toList.map Char.toNat

/-- ASCII fragment of Python `str.lower` on one code point. -/
def pyLowerNat (n : Nat) : Nat := if 65 ≤ n ∧ n ≤ 90 then n + 32 else n

/-- Python `str.lower` over a whole text. -/
def pyLower (s : List Nat) : List Nat := s.map pyLowerNat

/-- Python `str.split()` whitespace class (space, \t, \n, \r, \v, \f). -/
def pyIsSpace (n : Nat) : Bool := n == 32 || n == 9 || n == 10 || n == 13 || n == 11 || n == 12

/-- Helper for `countWords`: scan tracking whether we are inside a word. -/
def countWordsGo : Bool → List Nat → Nat
  | _, [] => 0
  | inWord, c :: rest =>
    if pyIsSpace c then countWordsGo false rest
    else (if inWord then 0 else 1) + countWordsGo true rest

/-- `len(prompt.split())`: number of maximal non-whitespace runs. -/
def countWords (s : List Nat) : Nat := countWordsGo false s

/-- Is `needle` a prefix of `hay`? -/
def listPrefixOf : List Nat → List Nat → Bool
  | [], _ => true
  | _ :: _, [] => false
  | a :: as, b :: bs => a == b && listPrefixOf as bs

/-- Python substring test `needle in hay` on code-point lists: `needle`
occurs contiguously somewhere in `hay`. -/
def isSubstr (needle hay : List Nat) : Bool :=
  match hay with
  | [] => listPrefixOf needle []
  | _ :: t => listPrefixOf needle hay || isSubstr needle t

/-- `any(keyword in prompt_lower for keyword in keywords)` from
`detect_category`: does some keyword occur in the lower-cased text? -/
def matchesAny (kws : List String) (s : List Nat) : Bool :=
  kws.any (fun k => isSubstr (strToCodes k) (pyLower s))

/-- Keyword list for `creative_writing` (app.py line 126). -/
def creativeKeywords : List String :=
  ["write", "story", "poem", "character", "fiction", "narrative", "creative"]

/-- Keyword list for `code_generation` (app.py line 127). -/
def codeKeywords : List String :=
  ["code", "function", "program", "algorithm", "python", "javascript", "java", "html"]

/-- Keyword list for `business_communication` (app.py line 128). -/
def businessKeywords : List String :=
  ["business", "email", "proposal", "report", "presentation", "marketing", "sales"]

/-- Keyword list for `academic_research` (app.py line 129). -/
def academicKeywords : List String :=
  ["research", "paper", "thesis", "study", "academic", "essay", "analysis"]

/-- Keyword list for `data_analysis` (app.py line 130). -/
def dataKeywords : List String :=
  ["data", "analyze", "statistics", "chart", "graph", "visualization", "excel"]

/-- All keywords of the five listed categories. -/
def allKeywords : List String :=
  creativeKeywords ++ codeKeywords ++ businessKeywords ++ academicKeywords ++ dataKeywords

/-- `PromptEnhancer.detect_category` (app.py lines 121-136): the loop over
the insertion-ordered `categories` dict unrolled into its five iterations;
the first category one of whose keywords occurs in the lower-cased prompt
wins, otherwise `"general"`.  (`main.py` lines 59-72 are the same chain
with keyword sublists.) -/
def detect_category (prompt : List Nat) : String :=
  if matchesAny creativeKeywords prompt then "creative_writing"
  else if matchesAny codeKeywords prompt then "code_generation"
  else if matchesAny businessKeywords prompt then "business_communication"
  else if matchesAny academicKeywords prompt then "academic_research"
  else if matchesAny dataKeywords prompt then "data_analysis"
  else "general"

/-- The keyword set the `categories` dict of `detect_category` associates
to a category name (empty for names outside the table). -/
def catKeywords (c : String) : List String :=
  if c = "creative_writing" then creativeKeywords
  else if c = "code_generation" then codeKeywords
  else if c = "business_communication" then businessKeywords
  else if c = "academic_research" then academicKeywords
  else if c = "data_analysis" then dataKeywords
  else []

/-- Category `c` has some keyword occurring in text `s`. -/
def catMatches (c : String) (s : List Nat) : Bool := matchesAny (catKeywords c) s

/-- Position of a category in the declared priority order of
`detect_category` (smaller index = higher priority; 5 for names outside
the table, including `"general"`). -/
def catIndex (c : String) : Nat :=
  if c = "creative_writing" then 0
  else if c = "code_generation" then 1
  else if c = "business_communication" then 2
  else if c = "academic_research" then 3
  else if c = "data_analysis" then 4
  else 5

/-- The dictionary returned by `PromptEnhancer.calculate_metrics`. -/
structure Metrics where
  word_count : Nat
  char_count : Nat
  token_estimate : Nat
  quality_score : Nat

/-- `PromptEnhancer.calculate_metrics` (app.py lines 221-239): word count
via `split()`, char count via `len`, token estimate `chars // 4`, and the
quality score accumulated by four independent +25 bonuses then clamped by
`min(score, 100.0)`. -/
def calculate_metrics (prompt : List Nat) : Metrics :=
  let words := countWords prompt
  let chars := prompt.length
  let score0 : Nat := 0
  let score1 := if words > 50 then score0 + 25 else score0
  let score2 :=
    if isSubstr (strToCodes "specific") (pyLower prompt)
        || isSubstr (strToCodes "detailed") (pyLower prompt) then score1 + 25 else score1
  let score3 :=
    if isSubstr (strToCodes "format") (pyLower prompt)
        || isSubstr (strToCodes "structure") (pyLower prompt) then score2 + 25 else score2
  let score4 :=
    if isSubstr (strToCodes "must") (pyLower prompt)
        || isSubstr (strToCodes "should") (pyLower prompt) then score3 + 25 else score3
  { word_count := words
    char_count := chars
    token_estimate := chars / 4
    quality_score := min score4 100 }

/-- Template text for `creative_writing` (app.py lines 141-152, the
verbatim triple-quoted value of the `templates` dict). -/
def creativeTemplate : String :=
  "\n            Transform this into a professional creative writing prompt with:\n            1. SPECIFIC GENRE & STYLE: Specify exact genre, tone, and writing style\n            2. CHARACTER DEVELOPMENT: Define main characters with specific traits and arcs\n            3. SETTING DETAILS: Provide vivid location, time period, and atmosphere\n            4. PLOT STRUCTURE: Outline beginning, conflict, climax, and resolution\n            5. THEMES & SYMBOLISM: Specify underlying themes\n            6. TECHNICAL REQUIREMENTS: Word count, POV, tense, dialogue ratio\n            7. CREATIVE CONSTRAINTS: Specific challenges or unique requirements\n            \n            Format the response clearly with sections.\n            "

/-- Template text for `code_generation` (app.py lines 154-165). -/
def codeTemplate : String :=
  "\n            Transform this into a professional coding prompt with:\n            1. LANGUAGE & VERSION: Specify exact programming language and version\n            2. FUNCTION SPECIFICATION: Clear input parameters and return types\n            3. EDGE CASES: Specific edge cases to handle\n            4. PERFORMANCE: Time/space complexity requirements\n            5. STYLE GUIDE: Code formatting rules and documentation\n            6. TEST CASES: Specific input/output examples\n            7. ERROR HANDLING: How to handle exceptions\n            \n            Format the response clearly with sections.\n            "

/-- Template text for `business_communication` (app.py lines 167-179). -/
def businessTemplate : String :=
  "\n            Transform this into a professional business communication prompt with:\n            1. AUDIENCE: Specific target audience with their knowledge level\n            2. PURPOSE: Clear objective and desired outcome\n            3. TONE & STYLE: Formal, persuasive, or informative tone\n            4. STRUCTURE: Specific sections to include\n            5. KEY POINTS: Mandatory points to cover\n            6. FORMAT: Email, report, proposal, or presentation format\n            7. LENGTH: Specific word count or duration\n            8. SUCCESS METRICS: How effectiveness will be measured\n            \n            Format the response clearly with sections.\n            "

/-- Template text for `academic_research` (app.py lines 181-193). -/
def academicTemplate : String :=
  "\n            Transform this into a professional academic research prompt with:\n            1. ACADEMIC LEVEL: Undergraduate, graduate, or doctoral\n            2. RESEARCH QUESTION: Clear and specific research question\n            3. METHODOLOGY: Required research methods\n            4. SOURCES: Required number and type of sources\n            5. CITATION STYLE: APA, MLA, Chicago, etc.\n            6. STRUCTURE: Required sections (abstract, intro, methodology, etc.)\n            7. WORD COUNT: Specific length requirement\n            8. EVALUATION CRITERIA: How the work will be graded\n            \n            Format the response clearly with sections.\n            "

/-- Template text for `data_analysis` (app.py lines 195-206). -/
def dataTemplate : String :=
  "\n            Transform this into a professional data analysis prompt with:\n            1. DATA SOURCES: Specify where data comes from\n            2. ANALYSIS METHODS: Required statistical tests or methods\n            3. VISUALIZATION: Required charts or graphs\n            4. TOOLS: Specific software or libraries to use\n            5. OUTPUT FORMAT: How results should be presented\n            6. KEY INSIGHTS: What insights to extract\n            7. LIMITATIONS: Analysis constraints or limitations\n            \n            Format the response clearly with sections.\n            "

/-- The default template passed to `templates.get(category, ...)`
(app.py lines 209-219), used for every category absent from the table. -/
def genericTemplate : String :=
  "\n        Transform this basic prompt into a detailed, professional prompt with:\n        1. Clear objectives and deliverables\n        2. Specific requirements and constraints\n        3. Format and structure guidelines\n        4. Success criteria and evaluation metrics\n        5. Appropriate tone and style\n        \n        Make it comprehensive, actionable, and ready for professional use.\n        Format the response clearly with sections.\n        "

/-- `PromptEnhancer.get_enhancement_template` (app.py lines 138-219):
`templates.get(category, generic)` over the five-key dict, unrolled. -/
def get_enhancement_template (category : String) : String :=
  if category = "creative_writing" then creativeTemplate
  else if category = "code_generation" then codeTemplate
  else if category = "business_communication" then businessTemplate
  else if category = "academic_research" then academicTemplate
  else if category = "data_analysis" then dataTemplate
  else genericTemplate

/-- ASCII letter test (model of Python "cased character" for `title()`;
every category tag is ASCII). -/
def pyIsAlphaNat (n : Nat) : Bool := decide ((65 ≤ n ∧ n ≤ 90) ∨ (97 ≤ n ∧ n ≤ 122))

/-- ASCII fragment of Python `str.upper` on one code point. -/
def pyUpperNat (n : Nat) : Nat := if 97 ≤ n ∧ n ≤ 122 then n - 32 else n

/-- Helper for `pyTitle`: scan carrying whether the previous character was
a letter; a letter after a non-letter is uppercased, otherwise lowercased. -/
def pyTitleGo : Bool → List Nat → List Nat
  | _, [] => []
  | prevAlpha, c :: rest =>
    (if pyIsAlphaNat c then (if prevAlpha then pyLowerNat c else pyUpperNat c) else c)
      :: pyTitleGo (pyIsAlphaNat c) rest

/-- Python `str.title()` (ASCII model). -/
def pyTitle (s : List Nat) : List Nat := pyTitleGo false s

/-- Python `category.replace('_', ' ')`. -/
def replaceUnderscores (s : List Nat) : List Nat := s.map (fun n => if n = 95 then 32 else n)

/-- Python `str(bool)` as interpolated by an f-string. -/
def pyBoolStr (b : Bool) : List Nat := if b then strToCodes "True" else strToCodes "False"

/-- The `PromptRequest` pydantic model (app.py lines 26-31): `prompt` is
the user text (as code points), `category` an optional tag, and the three
optional knobs carry their declared defaults. -/
structure PromptRequest where
  prompt : List Nat
  category : Option String := none
  tone : String := "professional"
  include_examples : Bool := true
  target_length : String := "detailed"

/-- `category = request.category or self.detect_category(request.prompt)`
(app.py line 244): Python `or` takes the right operand when the left is
falsy, i.e. when the field is absent (`None`) or the empty string. -/
def effectiveCategory (req : PromptRequest) : String :=
  match req.category with
  | none => detect_category req.prompt
  | some c => if c = "" then detect_category req.prompt else c

/-- The composite instruction string `enhancement_prompt` built by
`PromptEnhancer.enhance` (app.py lines 249-264) before the external AI
call: the f-string literal segments with the request fields, the
title-cased category label and the selected template spliced in. -/
def buildEnhancementPrompt (category : String) (req : PromptRequest) : List Nat :=
  strToCodes "\n        You are an expert prompt engineer. Transform this basic user request into a professional, detailed AI prompt.\n        \n        USER'S BASIC REQUEST: \"" ++ req.prompt
    ++ strToCodes "\"\n        \n        CATEGORY: " ++ pyTitle (replaceUnderscores (strToCodes category))
    ++ strToCodes "\n        TONE: " ++ strToCodes req.tone
    ++ strToCodes "\n        INCLUDE EXAMPLES: " ++ pyBoolStr req.include_examples
    ++ strToCodes "\n        TARGET LENGTH: " ++ strToCodes req.target_length
    ++ strToCodes "\n        \n        ENHANCEMENT GUIDELINES:\n        " ++ strToCodes (get_enhancement_template category)
    ++ strToCodes "\n        \n        Provide ONLY the enhanced professional prompt. No additional commentary or explanations.\n        Make it detailed, specific, and ready to be used with an AI system.\n        "

/-! ## Helper lemmas -/

theorem pyLowerNat_idem (n : Nat) : pyLowerNat (pyLowerNat n) = pyLowerNat n := by
  unfold pyLowerNat
  by_cases h : 65 ≤ n ∧ n ≤ 90
  · rw [if_pos h, if_neg (by omega : ¬ (65 ≤ n + 32 ∧ n + 32 ≤ 90))]
  · rw [if_neg h, if_neg h]

theorem pyLower_idem (s : List Nat) : pyLower (pyLower s) = pyLower s := by
  induction s with
  | nil => rfl
  | cons a t ih =>
    show pyLowerNat (pyLowerNat a) :: pyLower (pyLower t) = pyLowerNat a :: pyLower t
    rw [pyLowerNat_idem, ih]

theorem matchesAny_pyLower (kws : List String) (s : List Nat) :
    matchesAny kws (pyLower s) = matchesAny kws s := by
  unfold matchesAny
  rw [pyLower_idem]

theorem catMatches_cases (c : String) (s : List Nat) (hc : catMatches c s = true) :
    (c = "creative_writing" ∧ matchesAny creativeKeywords s = true) ∨
    (c = "code_generation" ∧ matchesAny codeKeywords s = true) ∨
    (c = "business_communication" ∧ matchesAny businessKeywords s = true) ∨
    (c = "academic_research" ∧ matchesAny academicKeywords s = true) ∨
    (c = "data_analysis" ∧ matchesAny dataKeywords s = true) := by
  unfold catMatches catKeywords at hc
  split at hc
  next h => exact Or.inl ⟨h, hc⟩
  next h1 =>
    split at hc
    next h => exact Or.inr (Or.inl ⟨h, hc⟩)
    next h2 =>
      split at hc
      next h => exact Or.inr (Or.inr (Or.inl ⟨h, hc⟩))
      next h3 =>
        split at hc
        next h => exact Or.inr (Or.inr (Or.inr (Or.inl ⟨h, hc⟩)))
        next h4 =>
          split at hc
          next h => exact Or.inr (Or.inr (Or.inr (Or.inr ⟨h, hc⟩)))
          next h5 => simp [matchesAny] at hc

/-! ## Claim theorems -/

/-- C1: for every text containing keywords of two or more categories,
`detect_category` returns a matching category of minimal index in the
declared priority order creative_writing, code_generation,
business_communication, academic_research, data_analysis; in particular
"write a python function" (matching both creative_writing and
code_generation) classifies as creative_writing. -/
theorem detect_category_priority (s : List Nat) (c₁ c₂ : String)
    (h₁ : catMatches c₁ s = true) (h₂ : catMatches c₂ s = true) (hne : c₁ ≠ c₂) :
    (catMatches (detect_category s) s = true ∧
      ∀ c : String, catMatches c s = true → catIndex (detect_category s) ≤ catIndex c) ∧
    detect_category (strToCodes "write a python function") = "creative_writing" := by
  refine ⟨?_, by decide⟩
  by_cases hm1 : matchesAny creativeKeywords s = true
  · have hd : detect_category s = "creative_writing" := by
      unfold detect_category; rw [if_pos hm1]
    rw [hd]
    exact ⟨by simpa [catMatches, catKeywords] using hm1, fun c _ => Nat.zero_le _⟩
  · have hm1f : matchesAny creativeKeywords s = false := by simpa using hm1
    by_cases hm2 : matchesAny codeKeywords s = true
    · have hd : detect_category s = "code_generation" := by
        unfold detect_category; rw [if_neg hm1, if_pos hm2]
      rw [hd]
      refine ⟨by simpa [catMatches, catKeywords] using hm2, fun c hc => ?_⟩
      rcases catMatches_cases c s hc with ⟨h, hm⟩ | ⟨h, hm⟩ | ⟨h, hm⟩ | ⟨h, hm⟩ | ⟨h, hm⟩
      · subst h; exact absurd hm (by simp [hm1f])
      · subst h; decide
      · subst h; decide
      · subst h; decide
      · subst h; decide
    · have hm2f : matchesAny codeKeywords s = false := by simpa using hm2
      by_cases hm3 : matchesAny businessKeywords s = true
      · have hd : detect_category s = "business_communication" := by
          unfold detect_category; rw [if_neg hm1, if_neg hm2, if_pos hm3]
        rw [hd]
        refine ⟨by simpa [catMatches, catKeywords] using hm3, fun c hc => ?_⟩
        rcases catMatches_cases c s hc with ⟨h, hm⟩ | ⟨h, hm⟩ | ⟨h, hm⟩ | ⟨h, hm⟩ | ⟨h, hm⟩
        · subst h; exact absurd hm (by simp [hm1f])
        · subst h; exact absurd hm (by simp [hm2f])
        · subst h; decide
        · subst h; decide
        · subst h; decide
      · have hm3f : matchesAny businessKeywords s = false := by simpa using hm3
        by_cases hm4 : matchesAny academicKeywords s = true
        · have hd : detect_category s = "academic_research" := by
            unfold detect_category; rw [if_neg hm1, if_neg hm2, if_neg hm3, if_pos hm4]
          rw [hd]
          refine ⟨by simpa [catMatches, catKeywords] using hm4, fun c hc => ?_⟩
          rcases catMatches_cases c s hc with ⟨h, hm⟩ | ⟨h, hm⟩ | ⟨h, hm⟩ | ⟨h, hm⟩ | ⟨h, hm⟩
          · subst h; exact absurd hm (by simp [hm1f])
          · subst h; exact absurd hm (by simp [hm2f])
          · subst h; exact absurd hm (by simp [hm3f])
          · subst h; decide
          · subst h; decide
        · have hm4f : matchesAny academicKeywords s = false := by simpa using hm4
          by_cases hm5 : matchesAny dataKeywords s = true
          · have hd : detect_category s = "data_analysis" := by
              unfold detect_category
              rw [if_neg hm1, if_neg hm2, if_neg hm3, if_neg hm4, if_pos hm5]
            rw [hd]
            refine ⟨by simpa [catMatches, catKeywords] using hm5, fun c hc => ?_⟩
            rcases catMatches_cases c s hc with ⟨h, hm⟩ | ⟨h, hm⟩ | ⟨h, hm⟩ | ⟨h, hm⟩ | ⟨h, hm⟩
            · subst h; exact absurd hm (by simp [hm1f])
            · subst h; exact absurd hm (by simp [hm2f])
            · subst h; exact absurd hm (by simp [hm3f])
            · subst h; exact absurd hm (by simp [hm4f])
            · subst h; decide
          · have hm5f : matchesAny dataKeywords s = false := by simpa using hm5
            rcases catMatches_cases c₁ s h₁ with ⟨h, hm⟩ | ⟨h, hm⟩ | ⟨h, hm⟩ | ⟨h, hm⟩ | ⟨h, hm⟩
            · exact absurd hm (by simp [hm1f])
            · exact absurd hm (by simp [hm2f])
            · exact absurd hm (by simp [hm3f])
            · exact absurd hm (by simp [hm4f])
            · exact absurd hm (by simp [hm5f])

/-- Witness for C1 at the regression input "write a python function",
which matches both creative_writing ("write") and code_generation
("python", "function"). -/
theorem detect_category_priority_witness :
    catMatches (detect_category (strToCodes "write a python function"))
      (strToCodes "write a python function") = true :=
  (detect_category_priority (strToCodes "write a python function")
    "creative_writing" "code_generation" (by decide) (by decide) (by decide)).1.1

/-- C2 counterexample: the claim says `score("") = 5` (the spec's
"otherwise" length-band bonus), but `calculate_metrics` has no length-band
schedule; on the empty string every bonus condition is false and the score
is 0, not 5. -/
theorem quality_score_empty_ne_five :
    ¬ ((calculate_metrics (strToCodes "")).quality_score = 5) := by decide

/-- C2 (amended): score applied to the empty string returns 0 — no bonus
substring can match and the word count 0 is not above 50, so no bonus at
all is added (the code has no "otherwise" length-band bonus). -/
theorem quality_score_empty_eq_zero :
    (calculate_metrics (strToCodes "")).quality_score = 0 := by decide

/-- C3: for every input text the quality score lies within [0, 100]; the
running total is clamped by `min(score, 100.0)` so it never exceeds 100. -/
theorem quality_score_bounded (s : List Nat) :
    0 ≤ (calculate_metrics s).quality_score ∧ (calculate_metrics s).quality_score ≤ 100 :=
  ⟨Nat.zero_le _, Nat.min_le_right _ _⟩

/-- C4: if no keyword of any of the five listed categories occurs in the
lower-cased text, `detect_category` returns "general"; moreover
`detect_category` is total and always returns one of the six category
values. -/
theorem detect_category_no_keyword_general (s : List Nat)
    (h : ∀ k ∈ allKeywords, isSubstr (strToCodes k) (pyLower s) = false) :
    detect_category s = "general" ∧
    ∀ t : List Nat, detect_category t ∈
      (["creative_writing", "code_generation", "business_communication",
        "academic_research", "data_analysis", "general"] : List String) := by
  constructor
  · have hm : ∀ kws : List String, (∀ k ∈ kws, k ∈ allKeywords) → matchesAny kws s = false := by
      intro kws hsub
      unfold matchesAny
      rw [List.any_eq_false]
      intro k hk
      simp [h k (hsub k hk)]
    unfold detect_category
    rw [hm creativeKeywords (by decide), hm codeKeywords (by decide),
      hm businessKeywords (by decide), hm academicKeywords (by decide),
      hm dataKeywords (by decide)]
    rfl
  · intro t
    unfold detect_category
    repeat' split
    all_goals simp

/-- Witness for C4: "hello" contains no keyword of any category and
classifies as "general". -/
theorem detect_category_no_keyword_general_witness :
    detect_category (strToCodes "hello") = "general" :=
  (detect_category_no_keyword_general (strToCodes "hello") (by decide)).1

/-- C5: the composite instruction string built by `enhance` before the
external AI call is a deterministic pure function of the request fields —
for one category and two requests with identical prompt, tone,
include_examples and target_length the composites are identical. -/
theorem enhancement_prompt_deterministic (c : String) (r₁ r₂ : PromptRequest)
    (hp : r₁.prompt = r₂.prompt) (ht : r₁.tone = r₂.tone)
    (he : r₁.include_examples = r₂.include_examples)
    (hl : r₁.target_length = r₂.target_length) :
    buildEnhancementPrompt c r₁ = buildEnhancementPrompt c r₂ := by
  unfold buildEnhancementPrompt
  rw [hp, ht, he, hl]

/-- Witness for C5: two requests with the same field values (one written
with its defaults, one with them spelled out) compose identically. -/
theorem enhancement_prompt_deterministic_witness :
    buildEnhancementPrompt "general" { prompt := strToCodes "x" } =
      buildEnhancementPrompt "general"
        { prompt := strToCodes "x", category := none, tone := "professional",
          include_examples := true, target_length := "detailed" } :=
  enhancement_prompt_deterministic "general" _ _ rfl rfl rfl rfl

/-- C6: every category string absent from the template table gets the
generic fallback template; in particular "general" and "nonexistent_tag"
both interpolate the same generic fallback. -/
theorem template_fallback :
    (∀ c : String,
      c ∉ (["creative_writing", "code_generation", "business_communication",
        "academic_research", "data_analysis"] : List String) →
      get_enhancement_template c = genericTemplate) ∧
    get_enhancement_template "general" = genericTemplate ∧
    get_enhancement_template "nonexistent_tag" = genericTemplate := by
  refine ⟨fun c hc => ?_, rfl, rfl⟩
  simp only [List.mem_cons, List.not_mem_nil, or_false, not_or] at hc
  obtain ⟨h1, h2, h3, h4, h5⟩ := hc
  simp [get_enhancement_template, h1, h2, h3, h4, h5]

/-- Witness for C6: the unknown tag "nonexistent_tag" takes the generic
fallback template. -/
theorem template_fallback_witness :
    get_enhancement_template "nonexistent_tag" = genericTemplate :=
  template_fallback.1 "nonexistent_tag" (by decide)

/-- C7: classification is case-insensitive — `detect_category` returns the
same category on a text and on its lower-cased form, since the decision
only looks at the lower-cased text and lowering is idempotent. -/
theorem detect_category_case_insensitive (s : List Nat) :
    detect_category s = detect_category (pyLower s) := by
  unfold detect_category
  simp only [matchesAny_pyLower]

/-- C8: a request whose category field is the empty string (falsy in
Python) is treated exactly like an absent category — `enhance` runs
keyword detection on the prompt in both cases. -/
theorem empty_category_uses_detection (p : List Nat) (t : String) (e : Bool) (l : String) :
    effectiveCategory ⟨p, some "", t, e, l⟩ = detect_category p ∧
    effectiveCategory ⟨p, none, t, e, l⟩ = detect_category p :=
  ⟨rfl, rfl⟩

/-- C9: the quality score is always one of the five values 0, 25, 50, 75,
100 — it is a sum of at most four independent +25 bonuses clamped at 100. -/
theorem quality_score_values (s : List Nat) :
    (calculate_metrics s).quality_score ∈ ([0, 25, 50, 75, 100] : List Nat) := by
  by_cases h1 : countWords s > 50 <;>
    by_cases h2 : (isSubstr (strToCodes "specific") (pyLower s)
      || isSubstr (strToCodes "detailed") (pyLower s)) = true <;>
    by_cases h3 : (isSubstr (strToCodes "format") (pyLower s)
      || isSubstr (strToCodes "structure") (pyLower s)) = true <;>
    by_cases h4 : (isSubstr (strToCodes "must") (pyLower s)
      || isSubstr (strToCodes "should") (pyLower s)) = true <;>
    simp [calculate_metrics, h1, h2, h3, h4]

/-- C10: the token estimate is the character count integer-divided by 4:
it equals `len / 4`, is 0 on any text shorter than 4 characters, and is
monotone in the character count. -/
theorem token_estimate_floor_div (s : List Nat) :
    (calculate_metrics s).token_estimate = s.length / 4 ∧
    (s.length < 4 → (calculate_metrics s).token_estimate = 0) ∧
    ∀ t : List Nat, s.length ≤ t.length →
      (calculate_metrics s).token_estimate ≤ (calculate_metrics t).token_estimate := by
  refine ⟨rfl, fun h => ?_, fun t h => ?_⟩
  · show s.length / 4 = 0
    exact Nat.div_eq_of_lt h
  · show s.length / 4 ≤ t.length / 4
    exact Nat.div_le_div_right h

/-- Witness for C10: a 3-character text has token estimate 0 and the
estimate does not decrease when one character is appended. -/
theorem token_estimate_floor_div_witness :
    (calculate_metrics (strToCodes "abc")).token_estimate = 0 ∧
    (calculate_metrics (strToCodes "abc")).token_estimate ≤
      (calculate_metrics (strToCodes "abcd")).token_estimate :=
  ⟨(token_estimate_floor_div (strToCodes "abc")).2.1 (by decide),
   (token_estimate_floor_div (strToCodes "abc")).2.2 (strToCodes "abcd") (by decide)⟩
